import Mathlib

/-!
Verification of the hover-triggered fetch/cache/render pipeline of
`content.js` (Netflix-IMDb-Extension).  The JavaScript is embedded
shallowly: the module-level mutable state (`ratingCache`, `debounceTimer`)
becomes explicit state records, promise results become `Option String`
(`null` is `none`), thrown JS exceptions become `Except`, and the DOM is
modelled as lists of elements carrying class names and content.
-/

namespace NetflixImdb

/-- A JavaScript runtime exception, as relevant to `content.js`.
Evaluating an undeclared identifier raises a `ReferenceError` carrying the
identifier's name. -/
inductive JSError where
  | referenceError (name : String)
  deriving DecidableEq

/-- The parsed JSON body `data` of an OMDb response: `data.Response`
(a string flag) and `data.imdbRating` (`none` models an absent/undefined
field). -/
structure OmdbData where
  response : String
  imdbRating : Option String
  deriving DecidableEq

/-- The remote lookup environment: what the OMDb service would respond
for each queried title.  `content.js` treats the service as an external
collaborator; this function parametrises the embedding by it. -/
def RemoteEnv : Type := String → OmdbData

/-- The `ratingCache` map, `Map.set` semantics: overwrite the entry for an
existing key, else append. -/
def cacheSet (k v : String) : List (String × String) → List (String × String)
  | [] => [(k, v)]
  | (k', v') :: rest => if k' = k then (k, v) :: rest else (k', v') :: cacheSet k v rest

/-- The `ratingCache` map, combined `Map.has`/`Map.get`: `some v` when the
key is present with value `v`, `none` when absent. -/
def cacheGet (k : String) : List (String × String) → Option String
  | [] => none
  | (k', v') :: rest => if k' = k then some v' else cacheGet k rest

/-- The mutable state `fetchRating` touches: the module-level `ratingCache`,
the `console.error` log (the observability sink), and a count of HTTP
requests actually issued by `fetch(...)`. -/
structure FetchState where
  cache : List (String × String)
  log : List (String × JSError)
  remoteCalls : Nat
  deriving DecidableEq

/-- Evaluation of the identifier `apiUrl` at the `fetch(apiUrl)` call site
(line 43).  Its `const apiUrl = ...` declaration (lines 40-42) is commented
out in the source, so the name is undeclared and evaluating it raises a
`ReferenceError` before any request is issued. -/
def evalApiUrl : Except JSError String :=
  .error (.referenceError "apiUrl")

/-- The `if` condition of lines 46-50 as the Boolean JavaScript evaluates:
`data.Response === "True" && data.imdbRating && data.imdbRating !== "N/A"`
(a present, non-empty string is truthy; an absent field or empty string is
falsy). -/
def ratingFound (data : OmdbData) : Bool :=
  data.response = "True" &&
    (match data.imdbRating with
     | none => false
     | some s => s ≠ "") &&
    data.imdbRating ≠ some "N/A"

/-- The body of the `try` block of `fetchRating` (lines 39-59):
evaluate `apiUrl`, issue the request, parse the JSON, and either store and
return the rating (when `ratingFound`) or store and return the `"N/A"`
sentinel.  Because `evalApiUrl` always throws, everything after it is dead
code, kept here exactly as the source has it. -/
def fetchTryBody (remote : RemoteEnv) (title : String) (st : FetchState) :
    Except JSError (String × FetchState) := do
  let _apiUrl ← evalApiUrl
  let st := { st with remoteCalls := st.remoteCalls + 1 }
  let data := remote title
  if ratingFound data then
    let rating := data.imdbRating.getD ""
    pure (rating, { st with cache := cacheSet title rating st.cache })
  else
    pure ("N/A", { st with cache := cacheSet title "N/A" st.cache })

/-- `fetchRating(title)` (lines 28-64).  `title : Option String` models a
string-or-absent argument; the result's first component is the resolved
value (`none` is `null`).  Guard: `if (!title) return null`.  Then the
cache check (lines 33-36), then the `try`/`catch`: on a throw, log
`"Error fetching IMDb rating:"` with the error and resolve `null`. -/
def fetchRating (remote : RemoteEnv) (title : Option String) (st : FetchState) :
    Option String × FetchState :=
  match title with
  | none => (none, st)
  | some t =>
    if t = "" then (none, st)
    else
      match cacheGet t st.cache with
      | some v => (some v, st)
      | none =>
        match fetchTryBody remote t st with
        | .ok (rating, st') => (some rating, st')
        | .error e =>
            (none, { st with log := st.log ++ [("Error fetching IMDb rating:", e)] })

/-- A DOM element as the badge renderer sees it: a class name and inner
HTML content. -/
structure Elem where
  className : String
  content : String
  deriving DecidableEq

/-- A Netflix card element (`.slider-item`): its child elements and whether
`style.position = "relative"` has been set on it. -/
structure Card where
  children : List Elem
  positionRelative : Bool
  deriving DecidableEq

/-- The test `querySelector(".imdb-rating-badge")` applies to each element. -/
def isBadge (e : Elem) : Bool :=
  e.className = "imdb-rating-badge"

/-- The badge element `displayRating` constructs (lines 77-79):
`div.imdb-rating-badge` with `innerHTML` a star entity and the rating. -/
def mkBadge (rating : String) : Elem :=
  { className := "imdb-rating-badge", content := "&#9733; " ++ rating }

/-- Effect of `existingBadge.remove()` after
`querySelector(".imdb-rating-badge")`: delete the first element matching
the badge class, if any; leave the list unchanged otherwise. -/
def removeFirstBadge : List Elem → List Elem
  | [] => []
  | e :: es => if isBadge e then es else e :: removeFirstBadge es

/-- `removeRating(targetElement)` (lines 95-100): find the badge child and
remove it if present; no-op otherwise. -/
def removeRating (target : Card) : Card :=
  { target with children := removeFirstBadge target.children }

/-- `displayRating(targetElement, rating)` (lines 71-89): first remove any
existing badge, then — if `rating` is falsy (`null` or empty) — return;
else set `position: relative` on the target and append a fresh badge child. -/
def displayRating (target : Card) (rating : Option String) : Card :=
  let target := removeRating target
  match rating with
  | none => target
  | some r =>
    if r = "" then target
    else { children := target.children ++ [mkBadge r], positionRelative := true }

/-- The badge children of a card, in document order. -/
def badges (c : Card) : List Elem :=
  c.children.filter isBadge

/-- How many badges a card carries. -/
def badgeCount (c : Card) : Nat :=
  (badges c).length

/-- The debounce quiet period passed at line 144: 300 time units. -/
def debounceDelay : Nat := 300

/-- An event the document-level listeners observe.  `enter t a` is a
`mouseover` at time `t` whose arguments (the event object) are `a`;
`leave t closest` is a `mouseout` at time `t`, where `closest` is the
index into the page's card list of `event.target.closest(".slider-item")`,
or `none` when no enclosing card exists. -/
inductive HEvent (α : Type) where
  | enter (t : Nat) (a : α)
  | leave (t : Nat) (closest : Option Nat)
  deriving DecidableEq

/-- Replace the `i`-th card of the page by `f` of it (the DOM mutation a
handler performs on the card it located). -/
def modifyCard (f : Card → Card) : Nat → List Card → List Card
  | _, [] => []
  | 0, c :: cs => f c :: cs
  | n + 1, c :: cs => c :: modifyCard f n cs

/-- The state of the hover controller: `timer` is the single module-level
`debounceTimer` (`some (d, a)` means one invocation of the debounced
`handleMouseOver` is scheduled for time `d` with arguments `a`); `fired`
records the enter-handler invocations that have happened, with their time
and arguments; `dom` is the page's card list. -/
structure HoverState (α : Type) where
  timer : Option (Nat × α)
  fired : List (Nat × α)
  dom : List Card
  deriving DecidableEq

/-- Run the pending timeout if its deadline has been reached by time
`now`: the event loop fires a due `setTimeout` callback before handling a
later DOM event. -/
def fireDue (st : HoverState α) (now : Nat) : HoverState α :=
  match st.timer with
  | none => st
  | some (d, a) =>
      if d ≤ now then { st with timer := none, fired := st.fired ++ [(d, a)] } else st

/-- Deliver one DOM event.  A `mouseover` runs the closure built by
`debounce(handleMouseOver, 300)` (lines 14-21): `clearTimeout(debounceTimer)`
then `debounceTimer = setTimeout(..., 300)` capturing this event's
arguments.  A `mouseout` runs `handleMouseOut` (lines 132-139): if
`closest(".slider-item")` found a card, `clearTimeout(debounceTimer)` and
`removeRating` on that card, synchronously; otherwise nothing. -/
def deliver (st : HoverState α) : HEvent α → HoverState α
  | .enter t a =>
      let st := fireDue st t
      { st with timer := some (t + debounceDelay, a) }
  | .leave t closest =>
      let st := fireDue st t
      match closest with
      | some i => { st with timer := none, dom := modifyCard removeRating i st.dom }
      | none => st

/-- After the last event, let time run on: a still-pending timeout fires. -/
def flush (st : HoverState α) : HoverState α :=
  match st.timer with
  | none => st
  | some (d, a) => { st with timer := none, fired := st.fired ++ [(d, a)] }

/-- Process a time-ordered event trace against a page holding `dom`,
starting with no pending timer and no invocations, and let the final
pending timeout (if any) fire. -/
def runTrace (dom : List Card) (evs : List (HEvent α)) : HoverState α :=
  flush (evs.foldl deliver ⟨none, [], dom⟩)

/-! Behaviour of `fetchRating` on the three live paths. -/

/-- The `try` body always throws: `apiUrl` is undeclared, so its evaluation
raises before the request, the JSON parse, or either cache write. -/
theorem fetchTryBody_throws (remote : RemoteEnv) (t : String) (st : FetchState) :
    fetchTryBody remote t st = .error (.referenceError "apiUrl") := rfl

/-- Cache-hit path (lines 33-36): resolve to the cached value, touch
nothing. -/
theorem fetchRating_hit (remote : RemoteEnv) (t : String) (st : FetchState) (v : String)
    (ht : t ≠ "") (hv : cacheGet t st.cache = some v) :
    fetchRating remote (some t) st = (some v, st) := by
  simp [fetchRating, ht, hv]

/-- Cache-miss path: the `try` body throws, the `catch` logs and resolves
`null`; cache and request count are untouched. -/
theorem fetchRating_miss (remote : RemoteEnv) (t : String) (st : FetchState)
    (ht : t ≠ "") (hm : cacheGet t st.cache = none) :
    fetchRating remote (some t) st =
      (none, { st with
                log := st.log ++ [("Error fetching IMDb rating:", .referenceError "apiUrl")] }) := by
  simp [fetchRating, ht, hm, fetchTryBody_throws]

/-- Claim C6: called with an absent or empty title, `fetchRating` resolves
to `null` immediately, with the state (cache, log, request count) exactly
as it was: no cache write, no remote call. -/
theorem empty_title_resolves_null (remote : RemoteEnv) (st : FetchState) :
    fetchRating remote none st = (none, st) ∧ fetchRating remote (some "") st = (none, st) := by
  exact ⟨rfl, rfl⟩

/-- Claim C2: for every non-empty uncached title, the `try` body throws the
`ReferenceError` on the undefined `apiUrl` (so the `catch` is always
reached), and `fetchRating` resolves to `null` with the cache unchanged and
no request issued. -/
theorem uncached_title_always_null (remote : RemoteEnv) (t : String) (st : FetchState)
    (ht : t ≠ "") (hm : cacheGet t st.cache = none) :
    fetchTryBody remote t st = .error (.referenceError "apiUrl")
    ∧ (fetchRating remote (some t) st).1 = none
    ∧ (fetchRating remote (some t) st).2.cache = st.cache
    ∧ (fetchRating remote (some t) st).2.remoteCalls = st.remoteCalls := by
  refine ⟨fetchTryBody_throws remote t st, ?_, ?_, ?_⟩ <;>
    rw [fetchRating_miss remote t st ht hm]

theorem uncached_title_always_null_witness :
    ("Title X" ≠ "" ∧ cacheGet "Title X" (FetchState.mk [] [] 0).cache = none)
    ∧ (fetchTryBody (fun _ => ⟨"True", some "8.4"⟩) "Title X" ⟨[], [], 0⟩
          = .error (.referenceError "apiUrl")
       ∧ (fetchRating (fun _ => ⟨"True", some "8.4"⟩) (some "Title X") ⟨[], [], 0⟩).1 = none
       ∧ (fetchRating (fun _ => ⟨"True", some "8.4"⟩) (some "Title X")
            ⟨[], [], 0⟩).2.cache = (FetchState.mk [] [] 0).cache
       ∧ (fetchRating (fun _ => ⟨"True", some "8.4"⟩) (some "Title X")
            ⟨[], [], 0⟩).2.remoteCalls = (FetchState.mk [] [] 0).remoteCalls) :=
  ⟨⟨by decide, rfl⟩,
   uncached_title_always_null (fun _ => ⟨"True", some "8.4"⟩) "Title X" ⟨[], [], 0⟩
     (by decide) rfl⟩

/-- Claim C5: when the remote lookup throws (which on this code is every
cache miss), `fetchRating` resolves to `null`, the cache is unchanged, the
key stays absent (so the title is retried later), and the failure is
appended to the `console.error` log. -/
theorem failure_atomicity (remote : RemoteEnv) (t : String) (st : FetchState)
    (ht : t ≠ "") (hm : cacheGet t st.cache = none) :
    fetchRating remote (some t) st =
      (none, { st with
                log := st.log ++ [("Error fetching IMDb rating:", .referenceError "apiUrl")] })
    ∧ (fetchRating remote (some t) st).2.cache = st.cache
    ∧ cacheGet t (fetchRating remote (some t) st).2.cache = none := by
  refine ⟨fetchRating_miss remote t st ht hm, ?_, ?_⟩
  · rw [fetchRating_miss remote t st ht hm]
  · rw [fetchRating_miss remote t st ht hm]
    exact hm

theorem failure_atomicity_witness :
    ("Title Y" ≠ "" ∧ cacheGet "Title Y" (FetchState.mk [("Other", "7.1")] [] 0).cache = none)
    ∧ (fetchRating (fun _ => ⟨"True", some "9.0"⟩) (some "Title Y") ⟨[("Other", "7.1")], [], 0⟩
        = (none, { FetchState.mk [("Other", "7.1")] [] 0 with
                    log := [] ++ [("Error fetching IMDb rating:", .referenceError "apiUrl")] })
       ∧ (fetchRating (fun _ => ⟨"True", some "9.0"⟩) (some "Title Y")
            ⟨[("Other", "7.1")], [], 0⟩).2.cache = (FetchState.mk [("Other", "7.1")] [] 0).cache
       ∧ cacheGet "Title Y" (fetchRating (fun _ => ⟨"True", some "9.0"⟩) (some "Title Y")
            ⟨[("Other", "7.1")], [], 0⟩).2.cache = none) :=
  ⟨⟨by decide, rfl⟩,
   failure_atomicity (fun _ => ⟨"True", some "9.0"⟩) "Title Y" ⟨[("Other", "7.1")], [], 0⟩
     (by decide) rfl⟩

/-- Claim C3: cache idempotence.  If one `fetchRating` call for `t`
resolved to `v` and left the cache holding `v` for `t`, then any later
`fetchRating` for `t` — under any remote environment — resolves to that
identical `v` and changes nothing: same cache, same log, same request
count (no further remote call). -/
theorem cache_idempotence (remote remote' : RemoteEnv) (t : String) (st : FetchState) (v : String)
    (h1 : (fetchRating remote (some t) st).1 = some v)
    (h2 : cacheGet t (fetchRating remote (some t) st).2.cache = some v) :
    fetchRating remote' (some t) (fetchRating remote (some t) st).2
      = (some v, (fetchRating remote (some t) st).2) := by
  have ht : t ≠ "" := by
    intro h
    subst h
    simp [fetchRating] at h1
  exact fetchRating_hit remote' t _ v ht h2

theorem cache_idempotence_witness :
    ((fetchRating (fun _ => ⟨"False", none⟩) (some "Title A") ⟨[("Title A", "8.4")], [], 0⟩).1
        = some "8.4"
     ∧ cacheGet "Title A" (fetchRating (fun _ => ⟨"False", none⟩) (some "Title A")
          ⟨[("Title A", "8.4")], [], 0⟩).2.cache = some "8.4")
    ∧ fetchRating (fun _ => ⟨"True", some "9.9"⟩) (some "Title A")
        (fetchRating (fun _ => ⟨"False", none⟩) (some "Title A")
          ⟨[("Title A", "8.4")], [], 0⟩).2
      = (some "8.4", (fetchRating (fun _ => ⟨"False", none⟩) (some "Title A")
          ⟨[("Title A", "8.4")], [], 0⟩).2) :=
  ⟨⟨rfl, rfl⟩,
   cache_idempotence (fun _ => ⟨"False", none⟩) (fun _ => ⟨"True", some "9.9"⟩)
     "Title A" ⟨[("Title A", "8.4")], [], 0⟩ "8.4" rfl rfl⟩

/-- Claim C1 (evaluation at the failing input): on an empty cache, with a
remote environment that would answer `Response:"True", imdbRating:"8.4"`
for every title, `fetchRating "Title A"` resolves to `null` — not `"8.4"` —
and writes nothing to the cache; the response satisfies the success
condition of lines 46-50, but that branch is unreachable because `apiUrl`
throws first. -/
theorem found_response_never_cached :
    fetchRating (fun _ => ⟨"True", some "8.4"⟩) (some "Title A") ⟨[], [], 0⟩
      = (none, ⟨[], [("Error fetching IMDb rating:", .referenceError "apiUrl")], 0⟩)
    ∧ ratingFound ⟨"True", some "8.4"⟩ = true :=
  ⟨rfl, rfl⟩

/-- Claim C4 (evaluation at the failing input): on an empty cache, with a
remote environment that would answer an explicit not-found
(`Response:"False"`, no rating field), `fetchRating "Title B"` resolves to
`null` and caches nothing — in particular no `"N/A"` sentinel is stored, so
the title is not negatively cached; the not-found branch of lines 55-59 is
unreachable because `apiUrl` throws first. -/
theorem notfound_response_never_cached :
    fetchRating (fun _ => ⟨"False", none⟩) (some "Title B") ⟨[], [], 0⟩
      = (none, ⟨[], [("Error fetching IMDb rating:", .referenceError "apiUrl")], 0⟩)
    ∧ ratingFound ⟨"False", none⟩ = false
    ∧ cacheGet "Title B" (fetchRating (fun _ => ⟨"False", none⟩) (some "Title B")
        ⟨[], [], 0⟩).2.cache = none :=
  ⟨rfl, rfl, rfl⟩

/-- Claim C10 (counterexample): the empty-title call completes without any
exception — the returned state equals the initial one, so the `catch`
logged nothing — yet the cache is not mutated and holds no entry for the
queried title.  So not every non-exceptional path of `fetchRating` writes a
cache entry. -/
theorem nonexceptional_path_without_write :
    fetchRating (fun _ => ⟨"True", some "8.4"⟩) (some "") ⟨[], [], 0⟩ = (none, ⟨[], [], 0⟩)
    ∧ cacheGet "" (fetchRating (fun _ => ⟨"True", some "8.4"⟩) (some "") ⟨[], [], 0⟩).2.cache
        = none :=
  ⟨rfl, rfl⟩

/-- Claim C10 (amended): `fetchRating` never mutates the cache on any path:
the guard and cache-hit paths return it untouched, and every cache-miss
path throws on the undefined `apiUrl` before reaching a cache write. -/
theorem fetchRating_never_writes_cache (remote : RemoteEnv) (title : Option String)
    (st : FetchState) :
    (fetchRating remote title st).2.cache = st.cache := by
  cases title with
  | none => rfl
  | some t =>
    by_cases ht : t = ""
    · subst ht
      rfl
    · cases hm : cacheGet t st.cache with
      | some v => rw [fetchRating_hit remote t st v ht hm]
      | none => rw [fetchRating_miss remote t st ht hm]

/-! Badge renderer properties. -/

/-- If a list of children carries at most one badge, removing the first
badge leaves none. -/
theorem filter_removeFirstBadge_eq_nil (l : List Elem) (h : l.countP isBadge ≤ 1) :
    (removeFirstBadge l).filter isBadge = [] := by
  induction l with
  | nil => rfl
  | cons e es ih =>
    by_cases hb : isBadge e
    · simp only [removeFirstBadge]
      rw [if_pos hb]
      rw [List.countP_cons_of_pos _ _ hb] at h
      rw [List.filter_eq_nil_iff]
      rw [← List.countP_eq_zero]
      omega
    · simp only [removeFirstBadge]
      rw [if_neg hb, List.filter_cons_of_neg hb]
      apply ih
      rw [List.countP_cons_of_neg _ _ hb] at h
      exact h

/-- Removing the first badge from a badge-free list changes nothing. -/
theorem removeFirstBadge_of_no_badge (l : List Elem) (h : ∀ a ∈ l, ¬ isBadge a) :
    removeFirstBadge l = l := by
  induction l with
  | nil => rfl
  | cons e es ih =>
    simp only [removeFirstBadge]
    rw [if_neg (h e (List.mem_cons_self e es)),
        ih (fun a ha => h a (List.mem_cons_of_mem e ha))]

/-- Under the at-most-one-badge invariant, `removeRating` leaves a card
badge-free. -/
theorem badges_removeRating (c : Card) (hc : badgeCount c ≤ 1) :
    badges (removeRating c) = [] := by
  have h : c.children.countP isBadge ≤ 1 := by
    rw [List.countP_eq_length_filter]
    exact hc
  exact filter_removeFirstBadge_eq_nil c.children h

/-- Under the invariant, displaying a truthy rating leaves exactly the
fresh badge. -/
theorem badges_displayRating_some (c : Card) (s : String) (hc : badgeCount c ≤ 1)
    (hs : s ≠ "") :
    badges (displayRating c (some s)) = [mkBadge s] := by
  have h : (removeFirstBadge c.children).filter isBadge = [] := badges_removeRating c hc
  simp only [displayRating, removeRating]
  rw [if_neg hs]
  show ((removeFirstBadge c.children) ++ [mkBadge s]).filter isBadge = [mkBadge s]
  rw [List.filter_append, h]
  rfl

/-- `displayRating` preserves the at-most-one-badge invariant. -/
theorem badgeCount_displayRating (c : Card) (r : Option String) (hc : badgeCount c ≤ 1) :
    badgeCount (displayRating c r) ≤ 1 := by
  cases r with
  | none =>
    show badgeCount (removeRating c) ≤ 1
    rw [badgeCount, badges_removeRating c hc]
    exact Nat.zero_le 1
  | some s =>
    by_cases hs : s = ""
    · subst hs
      show badgeCount (removeRating c) ≤ 1
      rw [badgeCount, badges_removeRating c hc]
      exact Nat.zero_le 1
    · rw [badgeCount, badges_displayRating_some c s hc hs]
      exact Nat.le_refl 1

/-- Claim C9: badge exclusivity.  Starting from a card satisfying the
at-most-one-badge invariant, `displayRating` preserves it; displaying
twice in succession with a truthy second rating leaves exactly one badge,
the one built from the second call's rating; and `removeRating` is a no-op
on a card with no badge. -/
theorem badge_exclusivity (c : Card) (r₁ : Option String) (s : String)
    (hc : badgeCount c ≤ 1) (hs : s ≠ "") :
    badgeCount (displayRating c r₁) ≤ 1
    ∧ badges (displayRating (displayRating c r₁) (some s)) = [mkBadge s]
    ∧ ∀ c' : Card, badgeCount c' = 0 → removeRating c' = c' := by
  refine ⟨badgeCount_displayRating c r₁ hc,
          badges_displayRating_some _ s (badgeCount_displayRating c r₁ hc) hs,
          fun c' h0 => ?_⟩
  have hnone : ∀ a ∈ c'.children, ¬ isBadge a := by
    rw [badgeCount, List.length_eq_zero, badges, List.filter_eq_nil_iff] at h0
    exact h0
  show removeRating c' = c'
  unfold removeRating
  rw [removeFirstBadge_of_no_badge c'.children hnone]

theorem badge_exclusivity_witness :
    (badgeCount (Card.mk [Elem.mk "boxart" "Title A"] false) ≤ 1 ∧ "8.4" ≠ "")
    ∧ (badgeCount (displayRating ⟨[⟨"boxart", "Title A"⟩], false⟩ (some "7.0")) ≤ 1
       ∧ badges (displayRating (displayRating ⟨[⟨"boxart", "Title A"⟩], false⟩ (some "7.0"))
            (some "8.4")) = [mkBadge "8.4"]
       ∧ ∀ c' : Card, badgeCount c' = 0 → removeRating c' = c') :=
  ⟨⟨by decide, by decide⟩,
   badge_exclusivity ⟨[⟨"boxart", "Title A"⟩], false⟩ (some "7.0") "8.4"
     (by decide) (by decide)⟩

/-! Hover controller properties. -/

/-- Reading back the modified card: `modifyCard` maps the entry at the
modified index and nothing else is needed here. -/
theorem modifyCard_getElem (f : Card → Card) (i : Nat) (l : List Card) :
    (modifyCard f i l)[i]? = l[i]?.map f := by
  induction l generalizing i with
  | nil => cases i <;> rfl
  | cons c cs ih =>
    cases i with
    | zero => simp [modifyCard]
    | succ n =>
      simp only [modifyCard, List.getElem?_cons_succ]
      exact ih n

/-- Folding a burst of enter events over a state whose pending timer was
set by a virtual predecessor `p`: as long as each event arrives strictly
within `debounceDelay` of the previous one, no scheduled invocation ever
fires — each enter merely cancels and replaces the pending timer — and the
final pending timer belongs to the last event. -/
theorem foldl_enter_chain {α : Type} (rest : List (Nat × α)) (p : Nat × α)
    (st : HoverState α)
    (hchain : List.Chain (fun x y : Nat × α => y.1 < x.1 + debounceDelay) p rest)
    (htimer : st.timer = some (p.1 + debounceDelay, p.2)) :
    (rest.map (fun q => HEvent.enter q.1 q.2)).foldl deliver st
      = { st with timer := some ((rest.getLastD p).1 + debounceDelay, (rest.getLastD p).2) } := by
  induction rest generalizing p st with
  | nil =>
    simp only [List.map_nil, List.foldl_nil, List.getLastD]
    cases st with
    | mk timer fired dom =>
      simp only at htimer
      rw [htimer]
  | cons q rest ih =>
    cases hchain with
    | cons hpq hchain =>
      simp only [List.map_cons, List.foldl_cons]
      have hstep : deliver st (HEvent.enter q.1 q.2)
          = { st with timer := some (q.1 + debounceDelay, q.2) } := by
        simp only [deliver, fireDue, htimer]
        rw [if_neg (by omega)]
      rw [hstep,
          ih q { st with timer := some (q.1 + debounceDelay, q.2) } hchain rfl,
          List.getLastD_cons]

/-- Claim C7: trailing-edge debounce collapse.  For any burst of
pointer-enter events in which each event arrives strictly less than
`debounceDelay` after the previous one, the whole trace produces exactly
one enter-handler invocation: it fires `debounceDelay` after the last
event, with the last event's arguments, and the page is untouched. -/
theorem debounce_collapse {α : Type} (p : Nat × α) (rest : List (Nat × α)) (dom : List Card)
    (hchain : List.Chain (fun x y : Nat × α => y.1 < x.1 + debounceDelay) p rest) :
    runTrace dom ((p :: rest).map (fun q => HEvent.enter q.1 q.2))
      = { timer := none,
          fired := [((rest.getLastD p).1 + debounceDelay, (rest.getLastD p).2)],
          dom := dom } := by
  unfold runTrace
  simp only [List.map_cons, List.foldl_cons]
  have h1 : deliver (⟨none, [], dom⟩ : HoverState α) (HEvent.enter p.1 p.2)
      = ⟨some (p.1 + debounceDelay, p.2), [], dom⟩ := rfl
  rw [h1, foldl_enter_chain rest p ⟨some (p.1 + debounceDelay, p.2), [], dom⟩ hchain rfl]
  rfl

theorem debounce_collapse_witness :
    List.Chain (fun x y : Nat × String => y.1 < x.1 + debounceDelay)
      (0, "card A") [(100, "card B"), (250, "card C")]
    ∧ runTrace [] ((((0, "card A") : Nat × String) ::
          [(100, "card B"), (250, "card C")]).map (fun q => HEvent.enter q.1 q.2))
      = { timer := none, fired := [(550, "card C")], dom := [] } :=
  ⟨.cons (by decide) (.cons (by decide) .nil),
   debounce_collapse (0, "card A") [(100, "card B"), (250, "card C")] []
     (.cons (by decide) (.cons (by decide) .nil))⟩

/-- Claim C8: leave cancels pending work.  A pointer-leave arriving before
the debounce delay elapses, whose target has an enclosing card, prevents
the scheduled enter-handler from ever firing and synchronously applies
`removeRating` to that card; reading the card back shows its badge handled
by `removeRating`.  When no enclosing card is found, nothing is cancelled
and nothing is removed: the scheduled invocation still fires. -/
theorem leave_cancels_pending {α : Type} (t₁ t₂ : Nat) (a : α) (dom : List Card) (i : Nat)
    (h : t₂ < t₁ + debounceDelay) :
    runTrace dom [HEvent.enter t₁ a, HEvent.leave t₂ (some i)]
      = { timer := none, fired := [], dom := modifyCard removeRating i dom }
    ∧ (∀ c, dom[i]? = some c →
        (runTrace dom [HEvent.enter t₁ a, HEvent.leave t₂ (some i)]).dom[i]?
          = some (removeRating c))
    ∧ runTrace dom [HEvent.enter t₁ a, HEvent.leave t₂ none]
      = { timer := none, fired := [(t₁ + debounceDelay, a)], dom := dom } := by
  have h1 : deliver (⟨none, [], dom⟩ : HoverState α) (HEvent.enter t₁ a)
      = ⟨some (t₁ + debounceDelay, a), [], dom⟩ := rfl
  have hcancel : runTrace dom [HEvent.enter t₁ a, HEvent.leave t₂ (some i)]
      = ⟨none, [], modifyCard removeRating i dom⟩ := by
    unfold runTrace
    simp only [List.foldl_cons, List.foldl_nil]
    rw [h1]
    simp only [deliver, fireDue]
    rw [if_neg (by omega)]
    rfl
  refine ⟨hcancel, fun c hc => ?_, ?_⟩
  · rw [hcancel]
    show (modifyCard removeRating i dom)[i]? = some (removeRating c)
    rw [modifyCard_getElem, hc]
    rfl
  · unfold runTrace
    simp only [List.foldl_cons, List.foldl_nil]
    rw [h1]
    simp only [deliver, fireDue]
    rw [if_neg (by omega)]
    rfl

theorem leave_cancels_pending_witness :
    (100 < 0 + debounceDelay)
    ∧ (runTrace [Card.mk [mkBadge "7.0"] true]
          [HEvent.enter 0 "card A", HEvent.leave 100 (some 0)]
        = { timer := none, fired := [],
            dom := modifyCard removeRating 0 [Card.mk [mkBadge "7.0"] true] }
       ∧ (∀ c, ([Card.mk [mkBadge "7.0"] true])[0]? = some c →
           (runTrace [Card.mk [mkBadge "7.0"] true]
              [HEvent.enter 0 "card A", HEvent.leave 100 (some 0)]).dom[0]?
             = some (removeRating c))
       ∧ runTrace [Card.mk [mkBadge "7.0"] true]
            [HEvent.enter 0 "card A", HEvent.leave 100 none]
         = { timer := none, fired := [(0 + debounceDelay, "card A")],
             dom := [Card.mk [mkBadge "7.0"] true] }) :=
  ⟨by decide,
   leave_cancels_pending 0 100 "card A" [Card.mk [mkBadge "7.0"] true] 0 (by decide)⟩

end NetflixImdb
